import Mathlib

/-
A shallow embedding of the `vessel_validator` Python module
(`src/vessel_validator/validator.py`) together with theorems about its
validation routines.  Strings are modelled as `List Char`; Python string
operations (`strip`, `upper`, `replace`, `isdigit`, slicing, `startswith`,
`endswith`, f-string interpolation) are modelled by explicit functions on
character lists restricted to the ASCII range the validator manipulates.
-/

namespace VesselValidator

/-- String type used throughout: Python `str` as a list of characters. -/
abbrev Str := List Char

/-- Models Python `str.isdigit` for a single ASCII character. -/
def pyIsDigitChar (c : Char) : Bool := 48 ≤ c.toNat && c.toNat ≤ 57

/-- Models Python `str.isdigit`: non-empty and all characters digits. -/
def pyIsDigit (s : Str) : Bool := !s.isEmpty && s.all pyIsDigitChar

/-- Numeric value of a digit character. -/
def digitVal (c : Char) : Nat := c.toNat - 48

/-- The digit character for `n ≤ 9`. -/
def digitChar (n : Nat) : Char := Char.ofNat (48 + n)

/-- Models Python `int(...)` on an all-digit string. -/
def strToNat (s : Str) : Nat := s.foldl (fun a c => a * 10 + digitVal c) 0

/-- Decimal rendering, with fuel for structural recursion; `natToStr` below
supplies enough fuel. -/
def natToStrAux : Nat → Nat → Str
  | 0, _ => []
  | f + 1, n => if n < 10 then [digitChar n] else natToStrAux f (n / 10) ++ [digitChar (n % 10)]

/-- Models Python f-string interpolation of a non-negative int. -/
def natToStr (n : Nat) : Str := natToStrAux (n + 1) n

/-- Models Python f-string interpolation of an int (possibly negative). -/
def intToStr (i : Int) : Str := if i < 0 then '-' :: natToStr i.natAbs else natToStr i.toNat

/-- ASCII whitespace stripped by Python `str.strip`. -/
def isSpaceChar (c : Char) : Bool := c.toNat = 32 || (9 ≤ c.toNat && c.toNat ≤ 13)

/-- Models Python `str.strip`. -/
def pyStrip (s : Str) : Str := ((s.dropWhile isSpaceChar).reverse.dropWhile isSpaceChar).reverse

/-- Models Python `str.upper` on ASCII characters. -/
def toUpperChar (c : Char) : Char :=
  if 97 ≤ c.toNat && c.toNat ≤ 122 then Char.ofNat (c.toNat - 32) else c

/-- Models Python `str.upper`. -/
def pyUpper (s : Str) : Str := s.map toUpperChar

/-- Models `.replace(" ", "").replace("-", "")`. -/
def removeSpaceHyphen (s : Str) : Str := s.filter (fun c => !(c == ' ' || c == '-'))

/-! ### Result data model (`ValidationResult` and the `info` dictionary) -/

/-- The `info["check_digit"]` record of the IMO validator. -/
structure CheckDigitDetail where
  calculated : Int
  actual : Int
  valid : Bool
  deriving DecidableEq, Repr

/-- The `info` dictionary: every key the validator may set, as an optional
field (absent key = `none`). -/
structure Info where
  type : Option Str := none
  mid : Option Str := none
  country : Option Str := none
  suitable_for : Option (List Str) := none
  check_digit : Option CheckDigitDetail := none
  validation_success : Option Str := none
  estimated_era : Option Str := none
  deriving DecidableEq, Repr

/-- The `ValidationResult` dataclass. -/
structure ValidationResult where
  valid : Bool
  normalized : Str := []
  errors : List Str := []
  warnings : List Str := []
  info : Info := {}
  deriving DecidableEq, Repr

/-! ### MMSI helper functions -/

/-- `_detect_mmsi_type`: classify an MMSI by its prefix, first match wins.
The source indexes `mmsi[0]` in the penultimate branch; it is only called on
9-character strings, so the empty case (classified `unknown` here) never
arises. -/
def detect_mmsi_type (mmsi : Str) : Str :=
  if "00".toList.isPrefixOf mmsi then "coast_station".toList
  else if "111".toList.isPrefixOf mmsi then "sar_aircraft".toList
  else if "99".toList.isPrefixOf mmsi then "aton".toList
  else if "98".toList.isPrefixOf mmsi then "craft_associated_with_ship".toList
  else if "970".toList.isPrefixOf mmsi then "ais_sart".toList
  else if "8".toList.isPrefixOf mmsi then "handheld".toList
  else if "0".toList.isPrefixOf mmsi then "group_station".toList
  else
    match mmsi with
    | c :: _ =>
      if c = '2' ∨ c = '3' ∨ c = '4' ∨ c = '5' ∨ c = '6' ∨ c = '7' then
        "ship_station".toList
      else "unknown".toList
    | [] => "unknown".toList

/-- `_extract_mmsi_mid`: extract the MID substring by type-dependent slice. -/
def extract_mmsi_mid (mmsi : Str) (mmsiType : Str) : Option Str :=
  if mmsiType = "ship_station".toList then some (mmsi.take 3)
  else if mmsiType = "coast_station".toList then some ((mmsi.drop 2).take 3)
  else if mmsiType = "group_station".toList then some ((mmsi.drop 1).take 3)
  else if mmsiType = "handheld".toList then some ((mmsi.drop 1).take 3)
  else if mmsiType = "sar_aircraft".toList then some ((mmsi.drop 3).take 3)
  else if mmsiType = "aton".toList then some ((mmsi.drop 2).take 3)
  else if mmsiType = "craft_associated_with_ship".toList then some ((mmsi.drop 2).take 3)
  else none

/-- `_get_mmsi_usage_contexts`. -/
def get_mmsi_usage_contexts (mmsiType : Str) : List Str :=
  if mmsiType = "ship_station".toList then
    ["vhf_communication".toList, "ais_transmission".toList, "dsc_calling".toList]
  else if mmsiType = "coast_station".toList then
    ["shore_based_communication".toList, "traffic_management".toList]
  else if mmsiType = "group_station".toList then
    ["fleet_operations".toList, "group_calling".toList]
  else if mmsiType = "handheld".toList then
    ["personal_vhf".toList, "portable_equipment".toList]
  else if mmsiType = "sar_aircraft".toList then
    ["search_and_rescue".toList, "emergency_response".toList]
  else if mmsiType = "aton".toList then
    ["navigation_aids".toList, "buoy_identification".toList]
  else if mmsiType = "ais_sart".toList then
    ["emergency_beacon".toList, "distress_signal".toList]
  else if mmsiType = "craft_associated_with_ship".toList then
    ["tender_operations".toList, "pilot_boats".toList]
  else ["general_maritime_use".toList]

/-- `len(set(mmsi)) == 1`: non-empty and all characters equal. -/
def allSameChars : Str → Bool
  | [] => false
  | c :: rest => rest.all (· == c)

/-- `_check_mmsi_suspicious_patterns`: the warnings appended, in order. -/
def check_mmsi_suspicious_patterns (mmsi : Str) : List Str :=
  (if allSameChars mmsi then
    ["MMSI contains suspicious pattern (all same digits: ".toList ++ [mmsi.headD ' '] ++ ")".toList]
  else []) ++
  (if mmsi = "123456789".toList ∨ mmsi = "012345678".toList ∨ mmsi = "234567890".toList then
    ["MMSI contains suspicious sequential ascending pattern".toList]
  else []) ++
  (if mmsi = "987654321".toList ∨ mmsi = "876543210".toList then
    ["MMSI contains suspicious sequential descending pattern".toList]
  else [])

/-! ### IMO helper functions -/

/-- `_calculate_imo_ship_check_digit`. -/
def calculate_imo_ship_check_digit (firstSixDigits : Str) : Int :=
  if firstSixDigits.length = 6 ∧ pyIsDigit firstSixDigits = true then
    ((List.zipWith (fun d w => digitVal d * w) firstSixDigits [7, 6, 5, 4, 3, 2]).sum % 10 : Nat)
  else -1

/-- `_calculate_imo_company_check_digit`. -/
def calculate_imo_company_check_digit (firstSixDigits : Str) : Int :=
  if firstSixDigits.length = 6 ∧ pyIsDigit firstSixDigits = true then
    ((11 - (List.zipWith (fun d w => digitVal d * w) firstSixDigits [8, 6, 4, 2, 9, 7]).sum % 11) % 10 : Nat)
  else -1

/-- `_estimate_imo_era`. -/
def estimate_imo_era (imoNum : Nat) : Str :=
  if imoNum < 5000000 then "Pre-1960s (historical)".toList
  else if imoNum < 6000000 then "1960s-1980s".toList
  else if imoNum < 7000000 then "1980s-1990s".toList
  else if imoNum < 8000000 then "1990s-2000s".toList
  else if imoNum < 9000000 then "2000s-2010s".toList
  else if imoNum < 9500000 then "2010s-2020s".toList
  else "2020s-present".toList


/-! ### MID country table (`MID_COUNTRIES`) -/

/-- The MID (Maritime Identification Digits) to country mapping, transcribed
from the source. -/
def MID_COUNTRIES : List (Str × Str) := [
  ("303".toList, "United States of America".toList),
  ("304".toList, "United States of America".toList),
  ("305".toList, "United States of America".toList),
  ("306".toList, "Netherlands Antilles".toList),
  ("307".toList, "Netherlands Antilles".toList),
  ("308".toList, "Bahamas".toList),
  ("309".toList, "Bahamas".toList),
  ("310".toList, "Bermuda".toList),
  ("311".toList, "Bahamas".toList),
  ("312".toList, "Belize".toList),
  ("314".toList, "Barbados".toList),
  ("316".toList, "Canada".toList),
  ("319".toList, "Cayman Islands".toList),
  ("321".toList, "Costa Rica".toList),
  ("323".toList, "Cuba".toList),
  ("325".toList, "Dominica".toList),
  ("327".toList, "Dominican Republic".toList),
  ("329".toList, "Guadeloupe".toList),
  ("330".toList, "Grenada".toList),
  ("331".toList, "Greenland".toList),
  ("332".toList, "Guatemala".toList),
  ("334".toList, "Honduras".toList),
  ("336".toList, "Haiti".toList),
  ("338".toList, "United States of America".toList),
  ("339".toList, "Jamaica".toList),
  ("341".toList, "Saint Kitts and Nevis".toList),
  ("343".toList, "Saint Lucia".toList),
  ("345".toList, "Mexico".toList),
  ("347".toList, "Martinique".toList),
  ("348".toList, "Montserrat".toList),
  ("350".toList, "Nicaragua".toList),
  ("351".toList, "Panama".toList),
  ("352".toList, "Panama".toList),
  ("353".toList, "Panama".toList),
  ("354".toList, "Panama".toList),
  ("355".toList, "Panama".toList),
  ("356".toList, "Panama".toList),
  ("357".toList, "Panama".toList),
  ("358".toList, "Puerto Rico".toList),
  ("359".toList, "El Salvador".toList),
  ("361".toList, "Saint Pierre and Miquelon".toList),
  ("362".toList, "Trinidad and Tobago".toList),
  ("364".toList, "Turks and Caicos Islands".toList),
  ("366".toList, "United States of America".toList),
  ("367".toList, "United States of America".toList),
  ("368".toList, "United States of America".toList),
  ("369".toList, "United States of America".toList),
  ("370".toList, "Panama".toList),
  ("371".toList, "Panama".toList),
  ("372".toList, "Panama".toList),
  ("373".toList, "Panama".toList),
  ("374".toList, "Panama".toList),
  ("375".toList, "Saint Vincent and the Grenadines".toList),
  ("376".toList, "Saint Vincent and the Grenadines".toList),
  ("377".toList, "Saint Vincent and the Grenadines".toList),
  ("378".toList, "British Virgin Islands".toList),
  ("201".toList, "Albania".toList),
  ("202".toList, "Andorra".toList),
  ("203".toList, "Austria".toList),
  ("204".toList, "Azores".toList),
  ("205".toList, "Belgium".toList),
  ("206".toList, "Belarus".toList),
  ("207".toList, "Bulgaria".toList),
  ("208".toList, "Vatican City State".toList),
  ("209".toList, "Cyprus".toList),
  ("210".toList, "Cyprus".toList),
  ("211".toList, "Germany".toList),
  ("212".toList, "Cyprus".toList),
  ("213".toList, "Georgia".toList),
  ("214".toList, "Moldova".toList),
  ("215".toList, "Malta".toList),
  ("216".toList, "Armenia".toList),
  ("218".toList, "Germany".toList),
  ("219".toList, "Denmark".toList),
  ("220".toList, "Denmark".toList),
  ("224".toList, "Spain".toList),
  ("225".toList, "Spain".toList),
  ("226".toList, "France".toList),
  ("227".toList, "France".toList),
  ("228".toList, "France".toList),
  ("229".toList, "Malta".toList),
  ("230".toList, "Finland".toList),
  ("231".toList, "Faroe Islands".toList),
  ("232".toList, "United Kingdom".toList),
  ("233".toList, "United Kingdom".toList),
  ("234".toList, "United Kingdom".toList),
  ("235".toList, "United Kingdom".toList),
  ("236".toList, "Gibraltar".toList),
  ("237".toList, "Greece".toList),
  ("238".toList, "Croatia".toList),
  ("239".toList, "Greece".toList),
  ("240".toList, "Greece".toList),
  ("241".toList, "Greece".toList),
  ("242".toList, "Morocco".toList),
  ("243".toList, "Hungary".toList),
  ("244".toList, "Netherlands".toList),
  ("245".toList, "Netherlands".toList),
  ("246".toList, "Netherlands".toList),
  ("247".toList, "Italy".toList),
  ("248".toList, "Malta".toList),
  ("249".toList, "Malta".toList),
  ("250".toList, "Ireland".toList),
  ("251".toList, "Iceland".toList),
  ("252".toList, "Liechtenstein".toList),
  ("253".toList, "Luxembourg".toList),
  ("254".toList, "Monaco".toList),
  ("255".toList, "Madeira".toList),
  ("256".toList, "Malta".toList),
  ("257".toList, "Norway".toList),
  ("258".toList, "Norway".toList),
  ("259".toList, "Norway".toList),
  ("261".toList, "Poland".toList),
  ("262".toList, "Montenegro".toList),
  ("263".toList, "Portugal".toList),
  ("264".toList, "Romania".toList),
  ("265".toList, "Sweden".toList),
  ("266".toList, "Sweden".toList),
  ("267".toList, "Slovak Republic".toList),
  ("268".toList, "San Marino".toList),
  ("269".toList, "Switzerland".toList),
  ("270".toList, "Czech Republic".toList),
  ("271".toList, "Turkey".toList),
  ("272".toList, "Ukraine".toList),
  ("273".toList, "Russian Federation".toList),
  ("274".toList, "Macedonia".toList),
  ("275".toList, "Latvia".toList),
  ("276".toList, "Estonia".toList),
  ("277".toList, "Lithuania".toList),
  ("278".toList, "Slovenia".toList),
  ("279".toList, "Serbia".toList),
  ("401".toList, "Afghanistan".toList),
  ("403".toList, "Saudi Arabia".toList),
  ("405".toList, "Bangladesh".toList),
  ("408".toList, "Bahrain".toList),
  ("410".toList, "Bhutan".toList),
  ("412".toList, "China".toList),
  ("413".toList, "China".toList),
  ("414".toList, "China".toList),
  ("416".toList, "Taiwan".toList),
  ("417".toList, "Sri Lanka".toList),
  ("419".toList, "India".toList),
  ("422".toList, "Iran".toList),
  ("423".toList, "Azerbaijan".toList),
  ("425".toList, "Iraq".toList),
  ("428".toList, "Israel".toList),
  ("431".toList, "Japan".toList),
  ("432".toList, "Japan".toList),
  ("434".toList, "Turkmenistan".toList),
  ("436".toList, "Kazakhstan".toList),
  ("437".toList, "Uzbekistan".toList),
  ("438".toList, "Jordan".toList),
  ("440".toList, "Korea".toList),
  ("441".toList, "Korea".toList),
  ("443".toList, "Palestine".toList),
  ("445".toList, "Democratic People\x27s Republic of Korea".toList),
  ("447".toList, "Kuwait".toList),
  ("450".toList, "Lebanon".toList),
  ("451".toList, "Kyrgyz Republic".toList),
  ("453".toList, "Macao".toList),
  ("455".toList, "Maldives".toList),
  ("457".toList, "Mongolia".toList),
  ("459".toList, "Nepal".toList),
  ("461".toList, "Oman".toList),
  ("463".toList, "Pakistan".toList),
  ("466".toList, "Qatar".toList),
  ("468".toList, "Syrian Arab Republic".toList),
  ("470".toList, "United Arab Emirates".toList),
  ("471".toList, "United Arab Emirates".toList),
  ("472".toList, "Tajikistan".toList),
  ("473".toList, "Yemen".toList),
  ("475".toList, "Yemen".toList),
  ("477".toList, "Hong Kong".toList),
  ("478".toList, "Bosnia and Herzegovina".toList),
  ("503".toList, "Australia".toList),
  ("506".toList, "Myanmar".toList),
  ("508".toList, "Brunei Darussalam".toList),
  ("510".toList, "Micronesia".toList),
  ("511".toList, "Palau".toList),
  ("512".toList, "New Zealand".toList),
  ("514".toList, "Cambodia".toList),
  ("515".toList, "Cambodia".toList),
  ("516".toList, "Christmas Island".toList),
  ("518".toList, "Cook Islands".toList),
  ("520".toList, "Fiji".toList),
  ("523".toList, "Cocos (Keeling) Islands".toList),
  ("525".toList, "Indonesia".toList),
  ("529".toList, "Kiribati".toList),
  ("531".toList, "Lao People\x27s Democratic Republic".toList),
  ("533".toList, "Malaysia".toList),
  ("536".toList, "Northern Mariana Islands".toList),
  ("538".toList, "Marshall Islands".toList),
  ("540".toList, "New Caledonia".toList),
  ("542".toList, "Niue".toList),
  ("544".toList, "Nauru".toList),
  ("546".toList, "French Polynesia".toList),
  ("548".toList, "Philippines".toList),
  ("553".toList, "Papua New Guinea".toList),
  ("555".toList, "Pitcairn Island".toList),
  ("557".toList, "Solomon Islands".toList),
  ("559".toList, "American Samoa".toList),
  ("561".toList, "Samoa".toList),
  ("563".toList, "Singapore".toList),
  ("564".toList, "Singapore".toList),
  ("565".toList, "Singapore".toList),
  ("566".toList, "Singapore".toList),
  ("567".toList, "Thailand".toList),
  ("570".toList, "Tonga".toList),
  ("572".toList, "Tuvalu".toList),
  ("574".toList, "Viet Nam".toList),
  ("576".toList, "Vanuatu".toList),
  ("577".toList, "Vanuatu".toList),
  ("578".toList, "Wallis and Futuna Islands".toList),
  ("601".toList, "South Africa".toList),
  ("603".toList, "Angola".toList),
  ("605".toList, "Algeria".toList),
  ("607".toList, "Saint Paul and Amsterdam Islands".toList),
  ("608".toList, "Ascension Island".toList),
  ("609".toList, "Burundi".toList),
  ("610".toList, "Benin".toList),
  ("611".toList, "Botswana".toList),
  ("612".toList, "Central African Republic".toList),
  ("613".toList, "Cameroon".toList),
  ("615".toList, "Congo".toList),
  ("616".toList, "Comoros".toList),
  ("617".toList, "Cape Verde".toList),
  ("618".toList, "Crozet Archipelago".toList),
  ("619".toList, "Ivory Coast".toList),
  ("620".toList, "Comoros".toList),
  ("621".toList, "Djibouti".toList),
  ("622".toList, "Egypt".toList),
  ("624".toList, "Ethiopia".toList),
  ("625".toList, "Eritrea".toList),
  ("626".toList, "Gabonese Republic".toList),
  ("627".toList, "Ghana".toList),
  ("629".toList, "Gambia".toList),
  ("630".toList, "Guinea-Bissau".toList),
  ("631".toList, "Equatorial Guinea".toList),
  ("632".toList, "Guinea".toList),
  ("633".toList, "Burkina Faso".toList),
  ("634".toList, "Kenya".toList),
  ("635".toList, "Kerguelen Islands".toList),
  ("636".toList, "Liberia".toList),
  ("637".toList, "Liberia".toList),
  ("638".toList, "South Sudan".toList),
  ("642".toList, "Libya".toList),
  ("644".toList, "Lesotho".toList),
  ("645".toList, "Mauritius".toList),
  ("647".toList, "Madagascar".toList),
  ("649".toList, "Mali".toList),
  ("650".toList, "Mozambique".toList),
  ("654".toList, "Mauritania".toList),
  ("655".toList, "Malawi".toList),
  ("656".toList, "Niger".toList),
  ("657".toList, "Nigeria".toList),
  ("659".toList, "Namibia".toList),
  ("660".toList, "Reunion".toList),
  ("661".toList, "Rwanda".toList),
  ("662".toList, "Sudan".toList),
  ("663".toList, "Senegal".toList),
  ("664".toList, "Seychelles".toList),
  ("665".toList, "Saint Helena".toList),
  ("666".toList, "Somalia".toList),
  ("667".toList, "Sierra Leone".toList),
  ("668".toList, "Sao Tome and Principe".toList),
  ("669".toList, "Swaziland".toList),
  ("670".toList, "Chad".toList),
  ("671".toList, "Togolese Republic".toList),
  ("672".toList, "Tunisia".toList),
  ("674".toList, "Tanzania".toList),
  ("675".toList, "Uganda".toList),
  ("676".toList, "Democratic Republic of the Congo".toList),
  ("677".toList, "Tanzania".toList),
  ("678".toList, "Zambia".toList),
  ("679".toList, "Zimbabwe".toList),
  ("710".toList, "Brazil".toList),
  ("720".toList, "Bolivia".toList),
  ("725".toList, "Chile".toList),
  ("730".toList, "Colombia".toList),
  ("735".toList, "Ecuador".toList),
  ("740".toList, "Falkland Islands".toList),
  ("745".toList, "Guiana".toList),
  ("750".toList, "Guyana".toList),
  ("755".toList, "Paraguay".toList),
  ("760".toList, "Peru".toList),
  ("765".toList, "Suriname".toList),
  ("770".toList, "Uruguay".toList),
  ("775".toList, "Venezuela".toList)]

/-! ### Error and warning message texts (f-strings of the source) -/

def msgMmsiEmpty : Str := "MMSI cannot be empty".toList

def msgMmsiLen (n : Nat) : Str := "MMSI must be exactly 9 digits, got ".toList ++ natToStr n

def msgMmsiNumeric : Str := "MMSI must contain only numeric digits".toList

def msgTypeMismatch (t dt : Str) : Str :=
  "Expected MMSI type \x27".toList ++ t ++ "\x27, but detected \x27".toList ++ dt ++ "\x27".toList

def msgInvalidMid (mid : Str) : Str :=
  "Invalid MID code: ".toList ++ mid ++ ". Must be between 201-775".toList

def msgCountryMismatch (mid country expected : Str) : Str :=
  "MID ".toList ++ mid ++ " corresponds to ".toList ++ country ++ ", expected ".toList ++ expected

def msgShipStart0189 : Str := "Ship station MMSI cannot start with 0, 1, 8, or 9".toList

def msgShipStart27 : Str := "Ship station MMSI must start with digit 2-7".toList

def msgShipEnd000 : Str :=
  "Ship MMSI does not end in 000. May not be valid for international voyages or Inmarsat".toList

def msgCoast : Str := "Coast station MMSI must start with 00".toList

def msgGroup : Str := "Group station MMSI must start with single 0".toList

def msgHandheld : Str := "Handheld MMSI must start with 8".toList

def msgSar : Str := "SAR aircraft MMSI must start with 111".toList

def msgAton : Str := "AIS AtoN MMSI must start with 99".toList

def msgUnknownStarts1 (fd : Char) : Str :=
  ("Invalid MMSI format: MMSI starting with \x271\x27 must be SAR aircraft (111XXXXXX). " ++
    "Ship stations must start with 2-7, not ").toList ++ [fd]

def msgUnknownGeneric : Str :=
  ("Unknown MMSI type. Valid formats: Ship (2-7XX), Coast (00XX), Group (0XX), " ++
    "Handheld (8XX), SAR (111XX), AtoN (99XX), SART (970XX), Craft (98XX)").toList

def msgImoEmpty : Str := "IMO number cannot be empty".toList

def msgImoNeedTag : Str := "IMO number must start with \x27IMO\x27 prefix".toList

def msgImoLen (n : Nat) : Str :=
  "IMO number must have exactly 7 digits after \x27IMO\x27 prefix, got ".toList ++ natToStr n

def msgImoNumeric : Str :=
  "IMO number must contain only numeric digits after \x27IMO\x27 prefix".toList

def msgImoZeros : Str := "IMO number should not start with leading zeros".toList

def msgImoBelowRange (n : Nat) : Str :=
  "IMO number ".toList ++ natToStr n ++ " is below valid range (suspicious)".toList

def msgImoShipMismatch (c a : Int) : Str :=
  "Invalid IMO number: check digit validation failed. Expected ".toList ++ intToStr c ++
    ", got ".toList ++ intToStr a

def msgImoShipSuccess (normalized : Str) : Str :=
  "IMO number ".toList ++ normalized ++ " is valid (check digit verified)".toList

def msgImoCompanyMismatch (c a : Int) : Str :=
  "Invalid IMO company number: check digit validation failed. Expected ".toList ++ intToStr c ++
    ", got ".toList ++ intToStr a

def msgImoCompanySuccess (normalized : Str) : Str :=
  "IMO company number ".toList ++ normalized ++ " is valid (check digit verified)".toList

def msgImoOlder (n : Nat) : Str :=
  "IMO ".toList ++ natToStr n ++ " appears to be from an older vessel (pre-1990s)".toList

/-! ### `validate_mmsi` -/

/-- Outcome of the MID extraction/validation block of `validate_mmsi`
(source lines 405-433). -/
structure MidOutcome where
  valid : Bool
  errors : List Str
  warnings : List Str
  mid : Option Str
  country : Option Str
  suitable_for : Option (List Str)
  deriving DecidableEq, Repr

/-- Outcome of the type-specific validation block of `validate_mmsi`
(source lines 435-494). -/
structure TypeOutcome where
  valid : Bool
  errors : List Str
  warnings : List Str
  deriving DecidableEq, Repr

/-- The MID extraction/validation block of `validate_mmsi`: source sets
`info["mid"]` before the range check, so `mid` is recorded even on a range
violation; `country`/`suitable_for` only inside the valid range. -/
def midStep (m dt : Str) (expectedCountry : Option Str) : MidOutcome :=
  match extract_mmsi_mid m dt with
  | none => ⟨true, [], [], none, none, none⟩
  | some mid =>
    if mid = [] then ⟨true, [], [], none, none, none⟩
    else
      let midNum := strToNat mid
      if midNum < 201 ∨ 775 < midNum then
        ⟨false, [msgInvalidMid mid], [], some mid, none, none⟩
      else
        let country := (MID_COUNTRIES.lookup mid).getD "Unknown".toList
        let cw :=
          match expectedCountry with
          | some e =>
            if e ≠ [] ∧ country ≠ e ∧ country ≠ "Unknown".toList then
              [msgCountryMismatch mid country e]
            else []
          | none => []
        ⟨true, [], cw, some mid, some country, some (get_mmsi_usage_contexts dt)⟩

/-- The type-specific validation block of `validate_mmsi`. -/
def typeRules (m dt : Str) : TypeOutcome :=
  if dt = "ship_station".toList then
    let fd := m.headD ' '
    let c1 : Bool := fd == '0' || fd == '1' || fd == '8' || fd == '9'
    let c2 : Bool := !(fd == '2' || fd == '3' || fd == '4' || fd == '5' || fd == '6' || fd == '7')
    ⟨!(c1 || c2),
      (if c1 then [msgShipStart0189] else []) ++ (if c2 then [msgShipStart27] else []),
      if "000".toList.isSuffixOf m then [] else [msgShipEnd000]⟩
  else if dt = "coast_station".toList then
    if "00".toList.isPrefixOf m then ⟨true, [], []⟩ else ⟨false, [msgCoast], []⟩
  else if dt = "group_station".toList then
    if !("0".toList.isPrefixOf m) || "00".toList.isPrefixOf m then ⟨false, [msgGroup], []⟩
    else ⟨true, [], []⟩
  else if dt = "handheld".toList then
    if "8".toList.isPrefixOf m then ⟨true, [], []⟩ else ⟨false, [msgHandheld], []⟩
  else if dt = "sar_aircraft".toList then
    if "111".toList.isPrefixOf m then ⟨true, [], []⟩ else ⟨false, [msgSar], []⟩
  else if dt = "aton".toList then
    if "99".toList.isPrefixOf m then ⟨true, [], []⟩ else ⟨false, [msgAton], []⟩
  else if dt = "unknown".toList then
    if m.headD ' ' = '1' then ⟨false, [msgUnknownStarts1 (m.headD ' ')], []⟩
    else ⟨false, [msgUnknownGeneric], []⟩
  else ⟨true, [], []⟩

/-- `validate_mmsi`.  The `strict_format` and `check_database` parameters are
accepted but never read by the source. -/
def validate_mmsi (mmsi mmsiType : Str) (expectedCountry : Option Str)
    (_strictFormat _checkDatabase : Bool) : ValidationResult :=
  let m := pyStrip mmsi
  if m = [] then ⟨false, m, [msgMmsiEmpty], [], {}⟩
  else if m.length ≠ 9 then ⟨false, m, [msgMmsiLen m.length], [], {}⟩
  else if pyIsDigit m = false then ⟨false, m, [msgMmsiNumeric], [], {}⟩
  else
    let dt := detect_mmsi_type m
    let tw := if mmsiType ≠ "auto".toList ∧ mmsiType ≠ dt then [msgTypeMismatch mmsiType dt] else []
    let mo := midStep m dt expectedCountry
    let tr := typeRules m dt
    ⟨mo.valid && tr.valid, m, mo.errors ++ tr.errors,
      tw ++ mo.warnings ++ tr.warnings ++ check_mmsi_suspicious_patterns m,
      { type := some dt, mid := mo.mid, country := mo.country, suitable_for := mo.suitable_for }⟩

/-! ### `validate_imo` -/

/-- The literal "IMO" tag. -/
def imoTag : Str := "IMO".toList

/-- The working string of `validate_imo`: trim, uppercase, drop spaces and
hyphens. -/
def imoWorking (imo : Str) : Str := removeSpaceHyphen (pyUpper (pyStrip imo))

/-- The digit payload of `validate_imo`: the working string with an "IMO" tag
removed when present. -/
def imoDigitsOf (imo : Str) : Str :=
  if imoTag.isPrefixOf (imoWorking imo) then (imoWorking imo).drop 3 else imoWorking imo

/-- The check-digit block of `validate_imo` (source lines 672-717):
returns (valid contribution, errors, `info["check_digit"]`,
`info["validation_success"]`). -/
def imoCheckStep (resolvedType digits normalized : Str) :
    Bool × List Str × Option CheckDigitDetail × Option Str :=
  if resolvedType = "ship".toList then
    let calcd := calculate_imo_ship_check_digit (digits.take 6)
    let act : Int := (digitVal (digits.getD 6 '0') : Nat)
    if calcd ≠ act then
      (false, [msgImoShipMismatch calcd act], some ⟨calcd, act, calcd == act⟩, none)
    else (true, [], some ⟨calcd, act, calcd == act⟩, some (msgImoShipSuccess normalized))
  else if resolvedType = "company".toList then
    let calcd := calculate_imo_company_check_digit (digits.take 6)
    let act : Int := (digitVal (digits.getD 6 '0') : Nat)
    if calcd ≠ act then
      (false, [msgImoCompanyMismatch calcd act], some ⟨calcd, act, calcd == act⟩, none)
    else (true, [], some ⟨calcd, act, calcd == act⟩, some (msgImoCompanySuccess normalized))
  else (true, [], none, none)

/-- `validate_imo`.  The `check_database` parameter is accepted but never read
by the source.  In the two earliest short-circuit returns the source has not
yet assigned `result.normalized`, so it keeps the dataclass default `""`. -/
def validate_imo (imo numberType : Str) (strictFormat allowWithoutPfx _checkDatabase : Bool) :
    ValidationResult :=
  let w := imoWorking imo
  if w = [] then ⟨false, [], [msgImoEmpty], [], {}⟩
  else if !imoTag.isPrefixOf w && (strictFormat && !allowWithoutPfx) then
    ⟨false, [], [msgImoNeedTag], [], {}⟩
  else
    let digits := imoDigitsOf imo
    let norm := imoTag ++ digits
    if digits.length ≠ 7 then ⟨false, norm, [msgImoLen digits.length], [], {}⟩
    else if pyIsDigit digits = false then ⟨false, norm, [msgImoNumeric], [], {}⟩
    else if digits.headD ' ' = '0' then ⟨false, norm, [msgImoZeros], [], {}⟩
    else
      let imoNum := strToNat digits
      if imoNum < 1000000 then ⟨false, norm, [msgImoBelowRange imoNum], [], {}⟩
      else
        let infoType := if numberType = "auto".toList then "ship (assumed)".toList else numberType
        let resolvedType := if numberType = "auto".toList then "ship".toList else numberType
        let cs := imoCheckStep resolvedType digits norm
        ⟨cs.1, norm, cs.2.1,
          if imoNum < 6000000 then [msgImoOlder imoNum] else [],
          { type := some infoType, check_digit := cs.2.2.1, validation_success := cs.2.2.2,
            estimated_era := some (estimate_imo_era imoNum) }⟩

/-! ### Batch validation -/

/-- Summary dictionary of a batch run. -/
structure BatchSummary where
  total : Nat
  valid : Nat
  invalid : Nat
  success_rate : Str
  deriving DecidableEq, Repr

/-- Result dictionary of a batch run; each `results` entry pairs the raw
input with its `ValidationResult`. -/
structure BatchResult where
  results : List (Str × ValidationResult)
  summary : BatchSummary
  deriving DecidableEq, Repr

/-- One iteration of the batch loops: append the item result and bump the
valid/invalid tallies. -/
def batchStep (f : Str → ValidationResult)
    (acc : List (Str × ValidationResult) × Nat × Nat) (x : Str) :
    List (Str × ValidationResult) × Nat × Nat :=
  let r := f x
  (acc.1 ++ [(x, r)],
    if r.valid then acc.2.1 + 1 else acc.2.1,
    if r.valid then acc.2.2 else acc.2.2 + 1)

/-- Floor of the base-2 logarithm, fuel-based so it reduces in the kernel;
`natLog2` supplies enough fuel. -/
def natLog2Aux : Nat → Nat → Nat
  | 0, _ => 0
  | f + 1, n => if n < 2 then 0 else natLog2Aux f (n / 2) + 1

/-- Floor of the base-2 logarithm (0 at 0). -/
def natLog2 (n : Nat) : Nat := natLog2Aux n n

/-- `den * 2^e ≤ num`, with a signed exponent. -/
def dyadicLe (den : Nat) (e : Int) (num : Nat) : Bool :=
  if 0 ≤ e then den * 2 ^ e.toNat ≤ num else den ≤ num * 2 ^ e.natAbs

/-- The integer `e` with `2^e ≤ num/den < 2^(e+1)`, for positive inputs. -/
def floorLog2 (num den : Nat) : Int :=
  let c : Int := (natLog2 num : Int) - (natLog2 den : Int)
  if dyadicLe den c num then c else c - 1

/-- Round `a / b` to the nearest integer, ties to even. -/
def roundHalfEven (a b : Nat) : Nat :=
  let q := a / b
  let r := a % b
  if 2 * r < b then q
  else if b < 2 * r then q + 1
  else if q % 2 = 0 then q else q + 1

/-- Round the rational `num/den` to the nearest multiple of `2^g`, ties to
even, returning the multiplier. -/
def roundRatToGrid (num den : Nat) (g : Int) : Nat :=
  if 0 ≤ g then roundHalfEven num (den * 2 ^ g.toNat)
  else roundHalfEven (num * 2 ^ g.natAbs) den

/-- The IEEE-754 binary64 value of `num/den` under round-nearest-ties-to-even
(CPython's true division of two non-negative ints), as a dyadic pair
`(m, g)` denoting `m * 2^g`.  The grid exponent `max (e-52) (-1074)` realizes
the 53-bit significand for normal results and the fixed subnormal spacing
below `2^-1022`; overflow cannot arise at the magnitudes the validator
produces. -/
def divB64 (num den : Nat) : Nat × Int :=
  if num = 0 then (0, 0)
  else
    let e := floorLog2 num den
    let g := max (e - 52) (-1074)
    (roundRatToGrid num den g, g)

/-- IEEE-754 binary64 multiplication of a dyadic double by a non-negative
int (CPython's `float * int` after exact conversion of the small int),
round-nearest-ties-to-even. -/
def mulB64Nat (d : Nat × Int) (k : Nat) : Nat × Int :=
  if d.1 * k = 0 then (0, 0)
  else
    let m := d.1 * k
    let e2 : Int := (natLog2 m : Int) + d.2
    let g := max (e2 - 52) (-1074)
    (roundRatToGrid m 1 (g - d.2), g)

/-- The number of tenths printed by `%.1f` for a dyadic double: the exact
value times ten, correctly rounded to an integer with ties to even (CPython's
`float_repr`-based formatting is correctly rounded). -/
def dyadicTenths (d : Nat × Int) : Nat := roundRatToGrid (d.1 * 10) 1 (-d.2)

/-- Python `f"{valid/total*100:.1f}%"`: true-divide the two ints to the
nearest binary64, multiply that double by 100 under the same rounding, and
print the result correctly rounded to one decimal place, ties to even — each
stage reproduced exactly in integer arithmetic (e.g. 23 of 80 formats as
"28.7%", the double being 28.749999999999996). -/
def fmtPercent (valid total : Nat) : Str :=
  let tenths := dyadicTenths (mulB64Nat (divB64 valid total) 100)
  natToStr (tenths / 10) ++ ['.'] ++ natToStr (tenths % 10) ++ ['%']

/-- `validate_imo_batch`. -/
def validate_imo_batch (l : List Str) (numberType : Str)
    (strictFormat allowWithoutPfx checkDatabase : Bool) : BatchResult :=
  let acc := l.foldl
    (batchStep (fun i => validate_imo i numberType strictFormat allowWithoutPfx checkDatabase))
    ([], 0, 0)
  ⟨acc.1, ⟨l.length, acc.2.1, acc.2.2,
    if l = [] then "0%".toList else fmtPercent acc.2.1 l.length⟩⟩

/-- `validate_mmsi_batch`. -/
def validate_mmsi_batch (l : List Str) (mmsiType : Str) (expectedCountry : Option Str)
    (strictFormat checkDatabase : Bool) : BatchResult :=
  let acc := l.foldl
    (batchStep (fun i => validate_mmsi i mmsiType expectedCountry strictFormat checkDatabase))
    ([], 0, 0)
  ⟨acc.1, ⟨l.length, acc.2.1, acc.2.2,
    if l = [] then "0%".toList else fmtPercent acc.2.1 l.length⟩⟩



/-- The claim's wording of the MMSI classification: prefixes tested in the
stated priority order, first match wins; to be compared with
`detect_mmsi_type` from the source. -/
def detectMmsiTypeSpec (mmsi : Str) : Str :=
  if "00".toList.isPrefixOf mmsi then "coast_station".toList
  else if "111".toList.isPrefixOf mmsi then "sar_aircraft".toList
  else if "99".toList.isPrefixOf mmsi then "aton".toList
  else if "98".toList.isPrefixOf mmsi then "craft_associated_with_ship".toList
  else if "970".toList.isPrefixOf mmsi then "ais_sart".toList
  else if "8".toList.isPrefixOf mmsi then "handheld".toList
  else if "0".toList.isPrefixOf mmsi then "group_station".toList
  else if mmsi.headD ' ' = '2' ∨ mmsi.headD ' ' = '3' ∨ mmsi.headD ' ' = '4' ∨
      mmsi.headD ' ' = '5' ∨ mmsi.headD ' ' = '6' ∨ mmsi.headD ' ' = '7' then
    "ship_station".toList
  else "unknown".toList

/-! ### Basic lemmas about the string model -/

theorem char_eq_of_toNat {c d : Char} (h : c.toNat = d.toNat) : c = d :=
  Char.ext (UInt32.ext h)

theorem pyIsDigitChar_iff {c : Char} : pyIsDigitChar c = true ↔ 48 ≤ c.toNat ∧ c.toNat ≤ 57 := by
  simp [pyIsDigitChar]

theorem digit_isSpace {c : Char} (h : pyIsDigitChar c = true) : isSpaceChar c = false := by
  rw [pyIsDigitChar_iff] at h
  simp only [isSpaceChar, Bool.or_eq_false_iff, decide_eq_false_iff_not, Bool.and_eq_false_iff]
  omega

theorem digit_toUpperChar {c : Char} (h : pyIsDigitChar c = true) : toUpperChar c = c := by
  rw [pyIsDigitChar_iff] at h
  unfold toUpperChar
  rw [if_neg]
  simp only [Bool.and_eq_true, decide_eq_true_eq, not_and]
  omega

theorem digit_keep {c : Char} (h : pyIsDigitChar c = true) : (!(c == ' ' || c == '-')) = true := by
  rw [pyIsDigitChar_iff] at h
  simp only [Bool.not_eq_true', Bool.or_eq_false_iff, beq_eq_false_iff_ne, ne_eq]
  constructor
  · intro hc; subst hc; revert h; decide
  · intro hc; subst hc; revert h; decide

theorem digitVal_pos {c : Char} (h : pyIsDigitChar c = true) (h0 : c ≠ '0') : 1 ≤ digitVal c := by
  rw [pyIsDigitChar_iff] at h
  have h48 : c.toNat ≠ 48 := by
    intro hn
    exact h0 (char_eq_of_toNat (by rw [hn]; decide))
  unfold digitVal
  omega

theorem digitVal_le {c : Char} (h : pyIsDigitChar c = true) : digitVal c ≤ 9 := by
  rw [pyIsDigitChar_iff] at h
  unfold digitVal
  omega

theorem pyStrip_eq_self {s : Str} (h : ∀ c ∈ s, isSpaceChar c = false) : pyStrip s = s := by
  unfold pyStrip
  have h1 : s.dropWhile isSpaceChar = s := by
    cases s with
    | nil => rfl
    | cons a t =>
      rw [List.dropWhile_cons_of_neg (by simp [h a (by simp)])]
  rw [h1]
  have h2 : s.reverse.dropWhile isSpaceChar = s.reverse := by
    cases hs : s.reverse with
    | nil => rfl
    | cons a t =>
      have ha : a ∈ s := by
        rw [← List.mem_reverse, hs]
        simp
      rw [List.dropWhile_cons_of_neg (by simp [h a ha])]
  rw [h2, List.reverse_reverse]

theorem pyUpper_eq_self {s : Str} (h : ∀ c ∈ s, toUpperChar c = c) : pyUpper s = s := by
  unfold pyUpper
  conv_rhs => rw [← List.map_id s]
  exact List.map_congr_left h

theorem removeSpaceHyphen_eq_self {s : Str} (h : ∀ c ∈ s, (!(c == ' ' || c == '-')) = true) :
    removeSpaceHyphen s = s := List.filter_eq_self.mpr h

theorem strToNat_foldl (s : Str) (a : Nat) :
    s.foldl (fun a c => a * 10 + digitVal c) a = a * 10 ^ s.length + strToNat s := by
  induction s generalizing a with
  | nil => simp [strToNat]
  | cons c t ih =>
    simp only [List.foldl_cons, List.length_cons]
    rw [ih (a * 10 + digitVal c)]
    have ht : strToNat (c :: t) = (0 * 10 + digitVal c) * 10 ^ t.length + strToNat t := by
      rw [strToNat, List.foldl_cons, ih (0 * 10 + digitVal c)]
    rw [ht]
    ring

theorem strToNat_cons (c : Char) (t : Str) :
    strToNat (c :: t) = digitVal c * 10 ^ t.length + strToNat t := by
  rw [strToNat, List.foldl_cons, strToNat_foldl]
  norm_num

theorem strToNat_ge_of_len7 {s : Str} (h7 : s.length = 7) (hd : pyIsDigit s = true)
    (h0 : s.headD ' ' ≠ '0') : 1000000 ≤ strToNat s := by
  cases s with
  | nil => simp at h7
  | cons c t =>
    have hlen : t.length = 6 := by simpa using h7
    have hc : pyIsDigitChar c = true := by
      have := (Bool.and_eq_true _ _).mp hd |>.2
      rw [List.all_cons, Bool.and_eq_true] at this
      exact this.1
    have hc0 : c ≠ '0' := by simpa using h0
    rw [strToNat_cons, hlen]
    calc (1000000 : Nat) = 1 * 10 ^ 6 := by norm_num
      _ ≤ digitVal c * 10 ^ 6 := Nat.mul_le_mul_right _ (digitVal_pos hc hc0)
      _ ≤ digitVal c * 10 ^ 6 + strToNat t := Nat.le_add_right _ _

/-! ### Lemmas about decimal rendering -/

theorem natToStrAux_ne_nil (f n : Nat) : natToStrAux (f + 1) n ≠ [] := by
  unfold natToStrAux
  split
  · simp
  · simp

theorem natToStr_ne_nil (n : Nat) : natToStr n ≠ [] := natToStrAux_ne_nil n n

theorem natToStrAux_getLast (f n : Nat) (hf : 0 < f) :
    ∃ d, d ≤ 9 ∧ (natToStrAux f n).getLast? = some (digitChar d) := by
  match f with
  | g + 1 =>
    unfold natToStrAux
    split
    · next h => exact ⟨n, by omega, by simp⟩
    · exact ⟨n % 10, by omega, List.getLast?_concat _⟩

theorem natToStr_getLast (n : Nat) : ∃ d, d ≤ 9 ∧ (natToStr n).getLast? = some (digitChar d) :=
  natToStrAux_getLast (n + 1) n n.succ_pos

theorem intToStr_ofNat (n : Nat) : intToStr (n : Int) = natToStr n := by
  unfold intToStr
  rw [if_neg (by omega)]
  simp

theorem digitChar_ne_rparen {d : Nat} (hd : d ≤ 9) : digitChar d ≠ ')' := by
  interval_cases d <;> decide

/-- A list ending in a rendered number does not have the fixed
"below valid range" suffix, whose last character is a parenthesis. -/
theorem natToStr_tail_no_paren_suffix (A : Str) (k : Nat) (T : Str)
    (hT : T.getLast? = some ')') : T.isSuffixOf (A ++ natToStr k) = false := by
  by_contra h
  rw [Bool.not_eq_false, List.isSuffixOf_iff_suffix] at h
  obtain ⟨p, hp⟩ := h
  obtain ⟨d, hd, hlast⟩ := natToStr_getLast k
  have h1 : (A ++ natToStr k).getLast? = some (digitChar d) := by
    rw [List.getLast?_append_of_ne_nil _ (natToStr_ne_nil k)]
    exact hlast
  have h2 : (A ++ natToStr k).getLast? = some ')' := by
    rw [← hp, List.getLast?_append_of_ne_nil _ ?h]
    · exact hT
    · intro hnil
      rw [hnil] at hT
      simp at hT
  rw [h1] at h2
  exact digitChar_ne_rparen hd (by injection h2)

/-! ### Fixpoint lemmas for IMO normalization -/

theorem imoTag_chars_fix :
    ∀ c ∈ imoTag, isSpaceChar c = false ∧ toUpperChar c = c ∧ (!(c == ' ' || c == '-')) = true := by
  decide

theorem imoWorking_fix {p : Str} (hd : ∀ c ∈ p, pyIsDigitChar c = true) :
    imoWorking (imoTag ++ p) = imoTag ++ p := by
  have hmem : ∀ c ∈ imoTag ++ p,
      isSpaceChar c = false ∧ toUpperChar c = c ∧ (!(c == ' ' || c == '-')) = true := by
    intro c hc
    rcases List.mem_append.mp hc with h | h
    · exact imoTag_chars_fix c h
    · exact ⟨digit_isSpace (hd c h), digit_toUpperChar (hd c h), digit_keep (hd c h)⟩
  unfold imoWorking
  rw [pyStrip_eq_self (fun c hc => (hmem c hc).1),
    pyUpper_eq_self (fun c hc => (hmem c hc).2.1),
    removeSpaceHyphen_eq_self (fun c hc => (hmem c hc).2.2)]

theorem imoTag_isPrefixOf_append (p : Str) : imoTag.isPrefixOf (imoTag ++ p) = true :=
  List.isPrefixOf_iff_prefix.mpr (List.prefix_append _ _)

theorem imoDigitsOf_tag {p : Str} (hd : ∀ c ∈ p, pyIsDigitChar c = true) :
    imoDigitsOf (imoTag ++ p) = p := by
  unfold imoDigitsOf
  rw [imoWorking_fix hd, if_pos (imoTag_isPrefixOf_append p)]
  have : (3 : Nat) = imoTag.length := rfl
  rw [this, List.drop_left]


/-- Every value `pyIsDigit` accepts has only digit characters. -/
theorem pyIsDigit_all {s : Str} (h : pyIsDigit s = true) : ∀ c ∈ s, pyIsDigitChar c = true := by
  unfold pyIsDigit at h
  rw [Bool.and_eq_true] at h
  intro c hc
  exact List.all_eq_true.mp h.2 c hc

/-! ### C1: the two check-digit helpers -/

/-- Claim C1: for every 6-character all-digit string the ship helper returns
`(d1*7 + d2*6 + d3*5 + d4*4 + d5*3 + d6*2) mod 10` and the company helper
returns `(11 - ((d1*8 + d2*6 + d3*4 + d4*2 + d5*9 + d6*7) mod 11)) mod 10`;
for every other input both helpers return the sentinel `-1`. -/
theorem C1_check_digit_helpers :
    (∀ c1 c2 c3 c4 c5 c6 : Char,
      pyIsDigitChar c1 = true → pyIsDigitChar c2 = true → pyIsDigitChar c3 = true →
      pyIsDigitChar c4 = true → pyIsDigitChar c5 = true → pyIsDigitChar c6 = true →
      calculate_imo_ship_check_digit [c1, c2, c3, c4, c5, c6] =
        ((digitVal c1 * 7 + digitVal c2 * 6 + digitVal c3 * 5 + digitVal c4 * 4 +
          digitVal c5 * 3 + digitVal c6 * 2) % 10 : Nat) ∧
      calculate_imo_company_check_digit [c1, c2, c3, c4, c5, c6] =
        (((11 - (digitVal c1 * 8 + digitVal c2 * 6 + digitVal c3 * 4 + digitVal c4 * 2 +
          digitVal c5 * 9 + digitVal c6 * 7) % 11) % 10 : Nat))) ∧
    (∀ s : Str, ¬(s.length = 6 ∧ pyIsDigit s = true) →
      calculate_imo_ship_check_digit s = -1 ∧ calculate_imo_company_check_digit s = -1) := by
  constructor
  · intro c1 c2 c3 c4 c5 c6 h1 h2 h3 h4 h5 h6
    have hcond : ([c1, c2, c3, c4, c5, c6] : Str).length = 6 ∧
        pyIsDigit [c1, c2, c3, c4, c5, c6] = true := by
      refine ⟨rfl, ?_⟩
      simp [pyIsDigit, h1, h2, h3, h4, h5, h6]
    constructor
    · unfold calculate_imo_ship_check_digit
      rw [if_pos hcond]
      norm_num [List.zipWith]
      ring_nf
    · unfold calculate_imo_company_check_digit
      rw [if_pos hcond]
      norm_num [List.zipWith]
      ring_nf
  · intro s h
    unfold calculate_imo_ship_check_digit calculate_imo_company_check_digit
    rw [if_neg h, if_neg h]
    exact ⟨rfl, rfl⟩

/-- Witness for C1 at the documented example `907472` (check digit 9) and at
a non-6-digit input. -/
theorem C1_check_digit_helpers_witness :
    calculate_imo_ship_check_digit "907472".toList =
      ((9 * 7 + 0 * 6 + 7 * 5 + 4 * 4 + 7 * 3 + 2 * 2) % 10 : Nat) ∧
    calculate_imo_company_check_digit "907472".toList =
      (((11 - (9 * 8 + 0 * 6 + 7 * 4 + 4 * 2 + 7 * 9 + 2 * 7) % 11) % 10 : Nat)) ∧
    calculate_imo_ship_check_digit "12345".toList = -1 ∧
    calculate_imo_company_check_digit "1234A6".toList = -1 := by
  have h := C1_check_digit_helpers.1 '9' '0' '7' '4' '7' '2'
    (by decide) (by decide) (by decide) (by decide) (by decide) (by decide)
  have h2 := C1_check_digit_helpers.2 "12345".toList (by decide)
  have h3 := C1_check_digit_helpers.2 "1234A6".toList (by decide)
  exact ⟨h.1, h.2, h2.1, h3.2⟩

/-! ### C2: MMSI type classification -/

/-- The classifier always produces one of the nine labels. -/
theorem detect_mmsi_type_mem (s : Str) :
    detect_mmsi_type s ∈ ["coast_station".toList, "sar_aircraft".toList, "aton".toList,
      "craft_associated_with_ship".toList, "ais_sart".toList, "handheld".toList,
      "group_station".toList, "ship_station".toList, "unknown".toList] := by
  cases s with
  | nil => decide
  | cons c t =>
    unfold detect_mmsi_type
    dsimp only
    split_ifs <;> simp

/-- Claim C2: classification is the total deterministic prefix cascade in the
stated priority order (first match wins), always yielding exactly one of the
nine labels; `"992320001"` classifies as `aton`. -/
theorem C2_mmsi_type_classification (s : Str) (h9 : s.length = 9) (hd : pyIsDigit s = true) :
    detect_mmsi_type s = detectMmsiTypeSpec s ∧
    detect_mmsi_type s ∈ ["coast_station".toList, "sar_aircraft".toList, "aton".toList,
      "craft_associated_with_ship".toList, "ais_sart".toList, "handheld".toList,
      "group_station".toList, "ship_station".toList, "unknown".toList] ∧
    detect_mmsi_type "992320001".toList = "aton".toList := by
  refine ⟨?_, detect_mmsi_type_mem s, by decide⟩
  cases s with
  | nil => simp at h9
  | cons c t => rfl

/-- Witness for C2 at `"992320001"`. -/
theorem C2_mmsi_type_classification_witness :
    detect_mmsi_type "992320001".toList = detectMmsiTypeSpec "992320001".toList ∧
    detect_mmsi_type "992320001".toList = "aton".toList :=
  ⟨(C2_mmsi_type_classification "992320001".toList (by decide) (by decide)).1,
    (C2_mmsi_type_classification "992320001".toList (by decide) (by decide)).2.2⟩


/-! ### C3: errors non-empty iff invalid -/

/-- The MID block sets `valid=false` exactly when it appends an error. -/
theorem midStep_valid_iff (m dt : Str) (ec : Option Str) :
    (midStep m dt ec).valid = true ↔ (midStep m dt ec).errors = [] := by
  unfold midStep
  cases hx : extract_mmsi_mid m dt with
  | none => simp
  | some mid =>
    dsimp only
    split_ifs with h1 h2
    · simp
    · simp
    · cases ec <;> simp

/-- Two independent error-appending checks keep `valid` and `errors` in
lockstep. -/
theorem two_checks_lockstep (c1 c2 : Bool) (e1 e2 : Str) :
    (!(c1 || c2)) = true ↔ ((if c1 then [e1] else []) ++ (if c2 then [e2] else [])) = [] := by
  cases c1 <;> cases c2 <;> simp

/-- The type-specific block sets `valid=false` exactly when it appends an
error. -/
theorem typeRules_valid_iff (m dt : Str) :
    (typeRules m dt).valid = true ↔ (typeRules m dt).errors = [] := by
  unfold typeRules
  split_ifs <;> first | exact two_checks_lockstep _ _ _ _ | simp

/-- The check-digit block of `validate_imo` sets `valid=false` exactly when
it appends an error. -/
theorem imoCheckStep_valid_iff (rt digits norm : Str) :
    (imoCheckStep rt digits norm).1 = true ↔ (imoCheckStep rt digits norm).2.1 = [] := by
  unfold imoCheckStep
  split_ifs with h1 h2
  · by_cases hc : calculate_imo_ship_check_digit (digits.take 6) =
      ((digitVal (digits[6]?.getD '0') : Nat) : Int)
    · simp [hc]
    · simp [hc]
  · by_cases hc : calculate_imo_company_check_digit (digits.take 6) =
      ((digitVal (digits[6]?.getD '0') : Nat) : Int)
    · simp [hc]
    · simp [hc]
  · simp

/-- A block whose `valid` flag tracks emptiness of its errors list yields the
errors-nonempty-iff-invalid equivalence. -/
theorem one_block_errors_iff {b : Bool} {e : List Str} (h : b = true ↔ e = []) :
    e ≠ [] ↔ b = false := by
  cases b <;> simp_all

/-- Two such blocks, with errors concatenated and flags conjoined. -/
theorem two_blocks_errors_iff (mo : MidOutcome) (tr : TypeOutcome)
    (h1 : mo.valid = true ↔ mo.errors = []) (h2 : tr.valid = true ↔ tr.errors = []) :
    mo.errors ++ tr.errors ≠ [] ↔ (mo.valid && tr.valid) = false := by
  cases hb : mo.valid <;> cases hc : tr.valid <;>
    simp_all [List.append_eq_nil]

/-- Claim C3: for every input and option combination of both validators, the
errors list is non-empty iff `valid` is false. -/
theorem C3_errors_iff_invalid (mmsi mmsiType : Str) (ec : Option Str) (sf cd : Bool)
    (imo numberType : Str) (sf2 awp cd2 : Bool) :
    ((validate_mmsi mmsi mmsiType ec sf cd).errors ≠ [] ↔
      (validate_mmsi mmsi mmsiType ec sf cd).valid = false) ∧
    ((validate_imo imo numberType sf2 awp cd2).errors ≠ [] ↔
      (validate_imo imo numberType sf2 awp cd2).valid = false) := by
  constructor
  · unfold validate_mmsi
    dsimp only
    split_ifs <;>
      first
        | exact two_blocks_errors_iff _ _ (midStep_valid_iff _ _ _) (typeRules_valid_iff _ _)
        | simp
  · unfold validate_imo
    dsimp only
    split_ifs <;>
      first
        | exact one_block_errors_iff (imoCheckStep_valid_iff _ _ _)
        | simp


/-! ### C7: the below-range guard is unreachable -/

/-- Errors produced by the check-digit block all end in a rendered digit, so
none carries the below-range suffix. -/
theorem imoCheckStep_errors_no_range_suffix (rt digits norm : Str) :
    ∀ e ∈ (imoCheckStep rt digits norm).2.1,
      " is below valid range (suspicious)".toList.isSuffixOf e = false := by
  have hT : (" is below valid range (suspicious)".toList).getLast? = some ')' := by decide
  unfold imoCheckStep
  split_ifs with h1 h2
  · by_cases hc : calculate_imo_ship_check_digit (digits.take 6) ≠
      ((digitVal (digits.getD 6 '0') : Nat) : Int)
    · rw [if_pos hc]
      intro e he
      rw [List.mem_singleton] at he
      subst he
      unfold msgImoShipMismatch
      rw [intToStr_ofNat]
      exact natToStr_tail_no_paren_suffix _ _ _ hT
    · rw [if_neg hc]
      intro e he
      simp at he
  · by_cases hc : calculate_imo_company_check_digit (digits.take 6) ≠
      ((digitVal (digits.getD 6 '0') : Nat) : Int)
    · rw [if_pos hc]
      intro e he
      rw [List.mem_singleton] at he
      subst he
      unfold msgImoCompanyMismatch
      rw [intToStr_ofNat]
      exact natToStr_tail_no_paren_suffix _ _ _ hT
    · rw [if_neg hc]
      intro e he
      simp at he
  · simp

/-- Claim C7: every 7-digit payload whose first character is not `'0'` parses
to at least 1,000,000, and consequently no error emitted by `validate_imo`
ever carries the "below valid range" text. -/
theorem C7_below_range_unreachable :
    (∀ s : Str, s.length = 7 → pyIsDigit s = true → s.headD ' ' ≠ '0' →
      1000000 ≤ strToNat s) ∧
    (∀ (imo numberType : Str) (sf awp cd : Bool),
      ∀ e ∈ (validate_imo imo numberType sf awp cd).errors,
        " is below valid range (suspicious)".toList.isSuffixOf e = false) := by
  have hT : (" is below valid range (suspicious)".toList).getLast? = some ')' := by decide
  refine ⟨fun s h7 hd h0 => strToNat_ge_of_len7 h7 hd h0, ?_⟩
  intro imo numberType sf awp cd e he
  unfold validate_imo at he
  dsimp only at he
  split_ifs at he with h1 h2 h3 h4 h5 h6
  · rw [List.mem_singleton] at he
    subst he
    decide
  · rw [List.mem_singleton] at he
    subst he
    decide
  · rw [List.mem_singleton] at he
    subst he
    unfold msgImoLen
    exact natToStr_tail_no_paren_suffix _ _ _ hT
  · rw [List.mem_singleton] at he
    subst he
    decide
  · rw [List.mem_singleton] at he
    subst he
    decide
  · have h3' : (imoDigitsOf imo).length = 7 := not_ne_iff.mp h3
    have h4' : pyIsDigit (imoDigitsOf imo) = true := by
      revert h4
      cases pyIsDigit (imoDigitsOf imo) <;> simp
    have := strToNat_ge_of_len7 h3' h4' h5
    omega
  all_goals exact imoCheckStep_errors_no_range_suffix _ _ _ e he

/-- Witness for C7 at payload `"1234567"` and at the empty-input error. -/
theorem C7_below_range_unreachable_witness :
    1000000 ≤ strToNat "1234567".toList ∧
    " is below valid range (suspicious)".toList.isSuffixOf msgImoEmpty = false :=
  ⟨C7_below_range_unreachable.1 "1234567".toList (by decide) (by decide) (by decide),
    C7_below_range_unreachable.2 "".toList "ship".toList false true false msgImoEmpty
      (by decide)⟩


/-! ### C8: IMO normalization is idempotent -/

/-- A successful `validate_imo` call pins down the payload shape and the
normalized form. -/
theorem validate_imo_valid_shape (imo nt : Str) (sf awp cd : Bool)
    (h : (validate_imo imo nt sf awp cd).valid = true) :
    (imoDigitsOf imo).length = 7 ∧ pyIsDigit (imoDigitsOf imo) = true ∧
    (imoDigitsOf imo).headD ' ' ≠ '0' ∧
    (validate_imo imo nt sf awp cd).normalized = imoTag ++ imoDigitsOf imo := by
  unfold validate_imo at h ⊢
  dsimp only at h ⊢
  split_ifs at h ⊢ with h1 h2 h3 h4 h5 h6 <;>
    (refine ⟨not_ne_iff.mp h3, ?_, h5, rfl⟩
     revert h4
     cases pyIsDigit (imoDigitsOf imo) <;> simp)

/-- When the working string is non-empty and carries the "IMO" tag, the
normalized output is always the tag plus the payload, whatever branch the
validation then takes. -/
theorem validate_imo_normalized_of_tag (x nt : Str) (sf awp cd : Bool)
    (hw : imoWorking x ≠ []) (hp : imoTag.isPrefixOf (imoWorking x) = true) :
    (validate_imo x nt sf awp cd).normalized = imoTag ++ imoDigitsOf x := by
  unfold validate_imo
  dsimp only
  rw [if_neg hw, if_neg (by rw [hp]; simp)]
  split_ifs <;> rfl

/-- Claim C8: validating the normalized output of a successful validation
reproduces the same normalized value, and `"IMO9074729"` normalizes to
itself. -/
theorem C8_normalization_idempotent (imo nt : Str) (sf awp cd : Bool)
    (h : (validate_imo imo nt sf awp cd).valid = true) :
    (validate_imo (validate_imo imo nt sf awp cd).normalized nt sf awp cd).normalized =
      (validate_imo imo nt sf awp cd).normalized ∧
    (validate_imo "IMO9074729".toList "ship".toList false true false).normalized =
      "IMO9074729".toList := by
  obtain ⟨h7, hd, h0, hn⟩ := validate_imo_valid_shape imo nt sf awp cd h
  refine ⟨?_, by decide⟩
  rw [hn]
  have hdp : ∀ c ∈ imoDigitsOf imo, pyIsDigitChar c = true := pyIsDigit_all hd
  have hfix : imoWorking (imoTag ++ imoDigitsOf imo) = imoTag ++ imoDigitsOf imo :=
    imoWorking_fix hdp
  rw [validate_imo_normalized_of_tag _ nt sf awp cd
    (by rw [hfix]; simp [imoTag])
    (by rw [hfix]; exact imoTag_isPrefixOf_append _)]
  rw [imoDigitsOf_tag hdp]

/-- Witness for C8 at `"IMO 9074729"`. -/
theorem C8_normalization_idempotent_witness :
    (validate_imo (validate_imo "IMO 9074729".toList "ship".toList false true false).normalized
        "ship".toList false true false).normalized =
      (validate_imo "IMO 9074729".toList "ship".toList false true false).normalized :=
  (C8_normalization_idempotent "IMO 9074729".toList "ship".toList false true false
    (by decide)).1


/-! ### C5: check-digit mismatch does not short-circuit -/

/-- Claim C5: once the payload checks pass, `info["estimated_era"]` is always
set and the older-vessel warning appears exactly when the parsed number is
below 6,000,000, independently of the check-digit outcome; a check-digit
failure still yields `valid=false` with an error; and
`validate_imo("1234567")` is valid with the older-vessel warning. -/
theorem C5_no_short_circuit (imo numberType : Str) (sf awp cd : Bool)
    (hw : imoWorking imo ≠ [])
    (hok : imoTag.isPrefixOf (imoWorking imo) = true ∨ ¬(sf = true ∧ awp = false))
    (h7 : (imoDigitsOf imo).length = 7)
    (hd : pyIsDigit (imoDigitsOf imo) = true)
    (h0 : (imoDigitsOf imo).headD ' ' ≠ '0') :
    (validate_imo imo numberType sf awp cd).info.estimated_era =
      some (estimate_imo_era (strToNat (imoDigitsOf imo))) ∧
    (msgImoOlder (strToNat (imoDigitsOf imo)) ∈ (validate_imo imo numberType sf awp cd).warnings
      ↔ strToNat (imoDigitsOf imo) < 6000000) ∧
    ((imoCheckStep (if numberType = "auto".toList then "ship".toList else numberType)
        (imoDigitsOf imo) (imoTag ++ imoDigitsOf imo)).1 = false →
      (validate_imo imo numberType sf awp cd).valid = false ∧
      (validate_imo imo numberType sf awp cd).errors ≠ []) ∧
    (validate_imo "1234567".toList "ship".toList false true false).valid = true ∧
    msgImoOlder 1234567 ∈ (validate_imo "1234567".toList "ship".toList false true false).warnings := by
  have hlow := strToNat_ge_of_len7 h7 hd h0
  have hstrict : ¬(!imoTag.isPrefixOf (imoWorking imo) && (sf && !awp)) = true := by
    rcases hok with hp | hno
    · rw [hp]
      simp
    · cases sf <;> cases awp <;> simp_all
  unfold validate_imo
  dsimp only
  rw [if_neg hw, if_neg hstrict, if_neg (by simp [h7]), if_neg (by simp [hd]),
    if_neg h0, if_neg (by omega)]
  refine ⟨?_, ?_, ?_, by decide, by decide⟩
  · rfl
  · by_cases hn : strToNat (imoDigitsOf imo) < 6000000 <;> simp [hn]
  · intro hcs
    refine ⟨hcs, ?_⟩
    exact (one_block_errors_iff (imoCheckStep_valid_iff _ _ _)).mpr hcs

/-- Witness for C5 at input `"1234567"`. -/
theorem C5_no_short_circuit_witness :
    (validate_imo "1234567".toList "ship".toList false true false).valid = true ∧
    msgImoOlder 1234567 ∈ (validate_imo "1234567".toList "ship".toList false true false).warnings := by
  have h := C5_no_short_circuit "1234567".toList "ship".toList false true false
    (by decide) (Or.inr (by simp)) (by decide) (by decide) (by decide)
  exact ⟨h.2.2.2.1, h.2.2.2.2⟩


/-! ### C4: MID range validation -/

/-- Claim C4: an extracted MID must parse into 201-775; out-of-range MIDs
(such as "200" and "776") produce the "Invalid MID code" error and
`valid=false` while processing continues (type rules and suspicious-pattern
checks still contribute), and in-range MIDs (such as "201" and "775") lead to
`info["mid"]`, `info["country"]` (table lookup defaulting to "Unknown") and
`info["suitable_for"]` being recorded. -/
theorem C4_mid_range (mmsi mmsiType : Str) (ec : Option Str) (sf cd : Bool) (mid : Str)
    (h9 : (pyStrip mmsi).length = 9)
    (hdig : pyIsDigit (pyStrip mmsi) = true)
    (hm : extract_mmsi_mid (pyStrip mmsi) (detect_mmsi_type (pyStrip mmsi)) = some mid)
    (hne : mid ≠ []) :
    (strToNat mid < 201 ∨ 775 < strToNat mid →
      msgInvalidMid mid ∈ (validate_mmsi mmsi mmsiType ec sf cd).errors ∧
      (validate_mmsi mmsi mmsiType ec sf cd).valid = false ∧
      (∀ e ∈ (typeRules (pyStrip mmsi) (detect_mmsi_type (pyStrip mmsi))).errors,
        e ∈ (validate_mmsi mmsi mmsiType ec sf cd).errors) ∧
      (∀ w ∈ check_mmsi_suspicious_patterns (pyStrip mmsi),
        w ∈ (validate_mmsi mmsi mmsiType ec sf cd).warnings)) ∧
    (201 ≤ strToNat mid ∧ strToNat mid ≤ 775 →
      (validate_mmsi mmsi mmsiType ec sf cd).info.mid = some mid ∧
      (validate_mmsi mmsi mmsiType ec sf cd).info.country =
        some ((MID_COUNTRIES.lookup mid).getD "Unknown".toList) ∧
      (validate_mmsi mmsi mmsiType ec sf cd).info.suitable_for =
        some (get_mmsi_usage_contexts (detect_mmsi_type (pyStrip mmsi)))) ∧
    (strToNat "200".toList < 201 ∧ 775 < strToNat "776".toList ∧
      201 ≤ strToNat "201".toList ∧ strToNat "775".toList ≤ 775) := by
  have hnil : pyStrip mmsi ≠ [] := by
    intro hn
    rw [hn] at h9
    simp at h9
  unfold validate_mmsi
  dsimp only
  rw [if_neg hnil, if_neg (by simp [h9]), if_neg (by simp [hdig])]
  refine ⟨?_, ?_, by decide⟩
  · intro hrange
    have hmo : midStep (pyStrip mmsi) (detect_mmsi_type (pyStrip mmsi)) ec =
        ⟨false, [msgInvalidMid mid], [], some mid, none, none⟩ := by
      unfold midStep
      rw [hm]
      dsimp only
      rw [if_neg hne, if_pos hrange]
    refine ⟨?_, ?_, ?_, ?_⟩
    · dsimp only
      rw [hmo]
      simp
    · dsimp only
      rw [hmo]
      simp
    · intro e he
      dsimp only
      exact List.mem_append_right _ he
    · intro w hw
      dsimp only
      exact List.mem_append_right _ hw
  · intro hin
    have hrange : ¬(strToNat mid < 201 ∨ 775 < strToNat mid) := by omega
    have hmid : ∀ (α : Type) (p : MidOutcome → α),
        (∀ cw, p ⟨true, [], cw, some mid,
          some ((MID_COUNTRIES.lookup mid).getD "Unknown".toList),
          some (get_mmsi_usage_contexts (detect_mmsi_type (pyStrip mmsi)))⟩ =
          p ⟨true, [], [], some mid,
            some ((MID_COUNTRIES.lookup mid).getD "Unknown".toList),
            some (get_mmsi_usage_contexts (detect_mmsi_type (pyStrip mmsi)))⟩) →
        p (midStep (pyStrip mmsi) (detect_mmsi_type (pyStrip mmsi)) ec) =
        p ⟨true, [], [], some mid,
          some ((MID_COUNTRIES.lookup mid).getD "Unknown".toList),
          some (get_mmsi_usage_contexts (detect_mmsi_type (pyStrip mmsi)))⟩ := by
      intro α p hcw
      unfold midStep
      rw [hm]
      dsimp only
      rw [if_neg hne, if_neg hrange]
      exact hcw _
    exact ⟨hmid _ MidOutcome.mid (fun cw => rfl),
      hmid _ MidOutcome.country (fun cw => rfl),
      hmid _ MidOutcome.suitable_for (fun cw => rfl)⟩

/-- Witness for C4: "200" is rejected on `"200123456"`; "201" on
`"201123456"` resolves to Albania. -/
theorem C4_mid_range_witness :
    msgInvalidMid "200".toList ∈
      (validate_mmsi "200123456".toList "auto".toList none false false).errors ∧
    (validate_mmsi "200123456".toList "auto".toList none false false).valid = false ∧
    (validate_mmsi "201123456".toList "auto".toList none false false).info.country =
      some "Albania".toList := by
  have h1 := C4_mid_range "200123456".toList "auto".toList none false false "200".toList
    (by decide) (by decide) (by decide) (by decide)
  have h2 := C4_mid_range "201123456".toList "auto".toList none false false "201".toList
    (by decide) (by decide) (by decide) (by decide)
  refine ⟨(h1.1 (by decide)).1, (h1.1 (by decide)).2.1, ?_⟩
  have h3 := (h2.2.1 (by decide)).2.1
  rw [h3]
  decide

/-! ### C9: caller-supplied type literals never match detected labels -/

/-- Counterexample to C9 as stated: the parameter literal `"aton"` does equal
the detected label `"aton"`, so `mmsi_type="aton"` on the AtoN MMSI
`"992320001"` produces no type-mismatch warning at all (the claim asserts the
warning always fires for every non-`auto` literal, handheld aside). -/
theorem C9_literal_mismatch_counterexample :
    (validate_mmsi "992320001".toList "aton".toList none false false).warnings = [] := by
  decide

/-- Claim C9 (amended): for every 9-digit input and caller type literal among
`ship`, `coast`, `group`, `sar`, the type-mismatch warning always fires,
because those parameter literals differ from every label the detector can
produce (`handheld` and `aton`, by contrast, coincide with detected labels). -/
theorem C9_literal_mismatch (mmsi t : Str) (ec : Option Str) (sf cd : Bool)
    (h9 : (pyStrip mmsi).length = 9) (hd : pyIsDigit (pyStrip mmsi) = true)
    (ht : t ∈ ["ship".toList, "coast".toList, "group".toList, "sar".toList]) :
    msgTypeMismatch t (detect_mmsi_type (pyStrip mmsi)) ∈
      (validate_mmsi mmsi t ec sf cd).warnings := by
  have hnil : pyStrip mmsi ≠ [] := by
    intro hn
    rw [hn] at h9
    simp at h9
  have hdt := detect_mmsi_type_mem (pyStrip mmsi)
  have hcond : t ≠ "auto".toList ∧ t ≠ detect_mmsi_type (pyStrip mmsi) := by
    simp only [List.mem_cons, List.mem_singleton, List.not_mem_nil, or_false] at ht hdt
    constructor
    · rcases ht with rfl | rfl | rfl | rfl <;> decide
    · rcases ht with rfl | rfl | rfl | rfl <;>
        rcases hdt with h | h | h | h | h | h | h | h | h <;> rw [h] <;> decide
  unfold validate_mmsi
  dsimp only
  rw [if_neg hnil, if_neg (by simp [h9]), if_neg (by simp [hd]), if_pos hcond]
  simp

/-- Witness for C9: requesting type "ship" on the genuinely-ship MMSI
`"366123000"` still warns. -/
theorem C9_literal_mismatch_witness :
    msgTypeMismatch "ship".toList "ship_station".toList ∈
      (validate_mmsi "366123000".toList "ship".toList none false false).warnings := by
  have h := C9_literal_mismatch "366123000".toList "ship".toList none false false
    (by decide) (by decide) (by decide)
  have hdt : detect_mmsi_type (pyStrip "366123000".toList) = "ship_station".toList := by decide
  rw [hdt] at h
  exact h

/-! ### C10: ais_sart inputs validate cleanly, emergency contexts unreachable -/

/-- An extracted MID pins the detected type to one of the seven MID-bearing
labels. -/
theorem extract_some_types {m dt mid : Str} (hx : extract_mmsi_mid m dt = some mid) :
    dt ∈ ["ship_station".toList, "coast_station".toList, "group_station".toList,
      "handheld".toList, "sar_aircraft".toList, "aton".toList,
      "craft_associated_with_ship".toList] := by
  unfold extract_mmsi_mid at hx
  split_ifs at hx <;> simp_all

/-- `midStep` records `suitable_for` only as the usage contexts of a
MID-bearing type. -/
theorem midStep_suitable_shape (m dt : Str) (ec : Option Str) :
    (midStep m dt ec).suitable_for = none ∨
    ((midStep m dt ec).suitable_for = some (get_mmsi_usage_contexts dt) ∧
      dt ∈ ["ship_station".toList, "coast_station".toList, "group_station".toList,
        "handheld".toList, "sar_aircraft".toList, "aton".toList,
        "craft_associated_with_ship".toList]) := by
  unfold midStep
  cases hx : extract_mmsi_mid m dt with
  | none => simp
  | some mid =>
    dsimp only
    split_ifs
    · simp
    · simp
    · exact Or.inr ⟨rfl, extract_some_types hx⟩

/-- Claim C10: every 9-digit input with prefix "970" (ais_sart) is valid with
no errors and records no MID, country or usage contexts; and the ais_sart
usage-context list is unreachable through `validate_mmsi`. -/
theorem C10_ais_sart :
    (∀ s : Str, s.length = 9 → pyIsDigit s = true → "970".toList.isPrefixOf s = true →
      (validate_mmsi s "auto".toList none false false).valid = true ∧
      (validate_mmsi s "auto".toList none false false).errors = [] ∧
      (validate_mmsi s "auto".toList none false false).info.mid = none ∧
      (validate_mmsi s "auto".toList none false false).info.country = none ∧
      (validate_mmsi s "auto".toList none false false).info.suitable_for = none) ∧
    (∀ (mmsi mmsiType : Str) (ec : Option Str) (sf cd : Bool),
      (validate_mmsi mmsi mmsiType ec sf cd).info.suitable_for ≠
        some ["emergency_beacon".toList, "distress_signal".toList]) := by
  constructor
  · intro s h9 hd hp
    obtain ⟨t, rfl⟩ : ∃ t, s = '9' :: '7' :: '0' :: t := by
      obtain ⟨u, hu⟩ := List.isPrefixOf_iff_prefix.mp hp
      exact ⟨u, hu.symm⟩
    have hstrip : pyStrip ('9' :: '7' :: '0' :: t) = '9' :: '7' :: '0' :: t :=
      pyStrip_eq_self (fun c hc => digit_isSpace (pyIsDigit_all hd c hc))
    unfold validate_mmsi
    dsimp only
    rw [hstrip, if_neg (by simp), if_neg (by simp [h9]), if_neg (by simp [hd])]
    have hdt : detect_mmsi_type ('9' :: '7' :: '0' :: t) = "ais_sart".toList := by
      simp [detect_mmsi_type, List.isPrefixOf]
    rw [hdt]
    have hmo : midStep ('9' :: '7' :: '0' :: t) "ais_sart".toList none =
        ⟨true, [], [], none, none, none⟩ := rfl
    have htr : typeRules ('9' :: '7' :: '0' :: t) "ais_sart".toList = ⟨true, [], []⟩ := rfl
    rw [hmo, htr]
    exact ⟨rfl, rfl, rfl, rfl, rfl⟩
  · intro mmsi mmsiType ec sf cd
    unfold validate_mmsi
    dsimp only
    split_ifs <;>
      first
        | (dsimp only
           rcases midStep_suitable_shape (pyStrip mmsi) (detect_mmsi_type (pyStrip mmsi)) ec with
             h | ⟨h, hmem⟩
           · rw [h]
             simp
           · rw [h]
             simp only [List.mem_cons, List.mem_singleton, List.not_mem_nil, or_false] at hmem
             rcases hmem with h' | h' | h' | h' | h' | h' | h' <;> rw [h'] <;> decide)
        | simp


/-- Witness for C10 at `"970123456"`. -/
theorem C10_ais_sart_witness :
    (validate_mmsi "970123456".toList "auto".toList none false false).valid = true ∧
    (validate_mmsi "970123456".toList "auto".toList none false false).errors = [] :=
  ⟨(C10_ais_sart.1 "970123456".toList (by decide) (by decide) (by decide)).1,
    (C10_ais_sart.1 "970123456".toList (by decide) (by decide) (by decide)).2.1⟩


/-! ### C6: batch validation -/

/-- The batch fold appends results in input order and tallies valid/invalid
counts. -/
theorem batchStep_foldl (f : Str → ValidationResult) (l : List Str) :
    ∀ acc : List (Str × ValidationResult) × Nat × Nat,
      l.foldl (batchStep f) acc =
        (acc.1 ++ l.map (fun x => (x, f x)),
          acc.2.1 + l.countP (fun x => (f x).valid),
          acc.2.2 + l.countP (fun x => !(f x).valid)) := by
  induction l with
  | nil => simp
  | cons x t ih =>
    intro acc
    rw [List.foldl_cons, ih]
    unfold batchStep
    dsimp only
    cases hx : (f x).valid <;>
      simp [List.countP_cons, hx] <;>
      omega

set_option maxRecDepth 4000 in
/-- Claim C6: both batch validators apply the single validator to each item
in input order, report `total`/`valid`/`invalid` as the length and the
valid/invalid tallies, and format `success_rate` as `valid/total*100` to one
decimal place with a percent sign ("0%" on an empty list); the documented
IMO batch example summarizes as 4/2/2 with success rate "50.0%". -/
theorem C6_batch_validation (l : List Str) (nt : Str) (sf awp cd : Bool)
    (ml : List Str) (mt : Str) (ec : Option Str) (sf2 cd2 : Bool) :
    ((validate_imo_batch l nt sf awp cd).results =
      l.map (fun x => (x, validate_imo x nt sf awp cd)) ∧
    (validate_imo_batch l nt sf awp cd).summary.total = l.length ∧
    (validate_imo_batch l nt sf awp cd).summary.valid =
      l.countP (fun x => (validate_imo x nt sf awp cd).valid) ∧
    (validate_imo_batch l nt sf awp cd).summary.invalid =
      l.countP (fun x => !(validate_imo x nt sf awp cd).valid) ∧
    (validate_imo_batch l nt sf awp cd).summary.success_rate =
      (if l = [] then "0%".toList
        else fmtPercent (l.countP (fun x => (validate_imo x nt sf awp cd).valid)) l.length)) ∧
    ((validate_mmsi_batch ml mt ec sf2 cd2).results =
      ml.map (fun x => (x, validate_mmsi x mt ec sf2 cd2)) ∧
    (validate_mmsi_batch ml mt ec sf2 cd2).summary.total = ml.length ∧
    (validate_mmsi_batch ml mt ec sf2 cd2).summary.valid =
      ml.countP (fun x => (validate_mmsi x mt ec sf2 cd2).valid) ∧
    (validate_mmsi_batch ml mt ec sf2 cd2).summary.invalid =
      ml.countP (fun x => !(validate_mmsi x mt ec sf2 cd2).valid) ∧
    (validate_mmsi_batch ml mt ec sf2 cd2).summary.success_rate =
      (if ml = [] then "0%".toList
        else fmtPercent (ml.countP (fun x => (validate_mmsi x mt ec sf2 cd2).valid)) ml.length)) ∧
    (validate_imo_batch ["9074729".toList, "9176187".toList, "9074728".toList, "999999".toList]
      "ship".toList false true false).summary = ⟨4, 2, 2, "50.0%".toList⟩ := by
  refine ⟨?_, ?_, ?_⟩
  · unfold validate_imo_batch
    rw [batchStep_foldl]
    exact ⟨by simp, rfl, by simp, by simp, by simp⟩
  · unfold validate_mmsi_batch
    rw [batchStep_foldl]
    exact ⟨by simp, rfl, by simp, by simp, by simp⟩
  · decide

end VesselValidator
